import Mathlib

/-!
Shallow embedding of the OGN-flavoured APRS-IS parser/formatter from
`src/lib/OgnParser.{h,cpp}` (Akaflieg-Freiburg/enrouteOGN).

Modelling conventions:
* C++ `std::string` / `std::string_view` values are `List Char`; a
  default-constructed (empty) view is `[]`.
* C++ `double` values that can carry the quiet-NaN sentinel or result from
  parsing (latitude/longitude/altitude) are `FpVal`: a finite exact rational,
  a signed infinity, or NaN, with IEEE special-value arithmetic.  Doubles that
  are always finite in this code (course, speed, pressure, ...) are plain `ℚ`.
  Decimal constants such as `0.3048` are the corresponding rationals: the
  rounding and the finite range of `double` are abstracted, every finite
  decimal being represented exactly.
* `std::from_chars` is modelled by `fromCharsU32` / `fromCharsI32` /
  `fromCharsHexU32` / `fromCharsF`: each parses the longest valid prefix and
  fails (returns `none`, the `ec != errc\x7b\x7d` case) when the prefix matches no
  valid form.  The floating-point variant implements the
  `chars_format::general` grammar of the primary (non-Android/Apple) source
  branch: optional minus; decimal digits optionally containing a point, with
  an optional exponent part that is rolled back when no exponent digit
  follows; and the case-insensitive INF/INFINITY and NAN forms (the value of
  a parse does not depend on how many trailing characters of those forms are
  consumed, and the source only inspects `ec` and the value).  Hex-float
  spellings accepted by the `strtod` fallback compiled only on Android/Apple
  are not modelled.
* All functions are total; termination of the embedding models the source's
  guarantee of never faulting on malformed input.
-/

/-- The C++ character `'\0'`. -/
def nullChar : Char := Char.ofNat 0

/-- The apostrophe character (ASCII 39), used as an APRS symbol code. -/
def aposChar : Char := Char.ofNat 39

/-- Embeds the helper `starts_with(sv, prefix)` from OgnParser.cpp. -/
def listStartsWith : List Char → List Char → Bool
  | _, [] => true
  | [], _ :: _ => false
  | c :: cs, p :: ps => c = p && listStartsWith cs ps

/-- Embeds the helper `ends_with(sv, suffix)` from OgnParser.cpp. -/
def listEndsWith (s suf : List Char) : Bool :=
  decide (suf.length ≤ s.length) && decide (s.drop (s.length - suf.length) = suf)

/-- Embeds `string_view::find(char)`: index of first occurrence, `none` = npos. -/
def findChar : List Char → Char → Option Nat
  | [], _ => none
  | c :: rest, t => if c = t then some 0 else (findChar rest t).map (· + 1)

/-- Embeds `string_view::find(char, pos)`: first occurrence at or after `pos`. -/
def findCharFrom (s : List Char) (t : Char) (pos : Nat) : Option Nat :=
  (findChar (s.drop pos) t).map (· + pos)

/-- Embeds `string_view::find(pattern)`: first occurrence of a substring. -/
def findSub : List Char → List Char → Option Nat
  | [], pat => if pat = [] then some 0 else none
  | c :: rest, pat =>
    if listStartsWith (c :: rest) pat then some 0
    else (findSub rest pat).map (· + 1)

/-- Embeds `string_view::substr(pos, len)`. -/
def substrP (s : List Char) (pos len : Nat) : List Char := (s.drop pos).take len

/-- Decimal digit test, embedding `c >= '0' && c <= '9'`. -/
def isDigitChar (c : Char) : Bool := 48 ≤ c.toNat && c.toNat ≤ 57

/-- Value of a decimal digit character. -/
def digitVal (c : Char) : Nat := c.toNat - 48

/-- Longest prefix of decimal digits. -/
def takeDigits : List Char → List Char
  | [] => []
  | c :: rest => if isDigitChar c then c :: takeDigits rest else []

/-- Value of a decimal digit string (most significant first). -/
def digitsToNat (l : List Char) : Nat := l.foldl (fun a c => 10 * a + digitVal c) 0

/-- Hexadecimal digit test. -/
def isHexChar (c : Char) : Bool :=
  isDigitChar c || (65 ≤ c.toNat && c.toNat ≤ 70) || (97 ≤ c.toNat && c.toNat ≤ 102)

/-- Value of a hexadecimal digit character. -/
def hexVal (c : Char) : Nat :=
  if isDigitChar c then c.toNat - 48
  else if c.toNat ≤ 70 then c.toNat - 55
  else c.toNat - 87

/-- Longest prefix of hexadecimal digits. -/
def takeHex : List Char → List Char
  | [] => []
  | c :: rest => if isHexChar c then c :: takeHex rest else []

/-- Value of a hexadecimal digit string (most significant first). -/
def hexToNat (l : List Char) : Nat := l.foldl (fun a c => 16 * a + hexVal c) 0

/-- Embeds `std::from_chars` into a `uint32_t`: longest digit prefix, at least
one digit, value below `2^32` (otherwise `errc::result_out_of_range`). -/
def fromCharsU32 (s : List Char) : Option Nat :=
  let ds := takeDigits s
  if ds = [] then none
  else if digitsToNat ds < 2 ^ 32 then some (digitsToNat ds) else none

/-- Embeds `std::from_chars` into an `int`: optional minus sign, longest digit
prefix, value within the 32-bit signed range. -/
def fromCharsI32 (s : List Char) : Option Int :=
  match s with
  | '-' :: rest =>
    let ds := takeDigits rest
    if ds = [] then none
    else if (digitsToNat ds : Int) ≤ 2 ^ 31 then some (-(digitsToNat ds : Int)) else none
  | t =>
    let ds := takeDigits t
    if ds = [] then none
    else if (digitsToNat ds : Int) ≤ 2 ^ 31 - 1 then some (digitsToNat ds : Int) else none

/-- Embeds `std::from_chars` with base 16 into a `uint32_t`. -/
def fromCharsHexU32 (s : List Char) : Option Nat :=
  let ds := takeHex s
  if ds = [] then none
  else if hexToNat ds < 2 ^ 32 then some (hexToNat ds) else none

/-- The extended value of a C++ `double`: a finite exact rational, an
infinity of either sign, or NaN.  Rounding and the finite range of `double`
are abstracted (every finite decimal is represented exactly). -/
inductive FpVal
  | fin (q : ℚ)
  | posInf
  | negInf
  | nan
deriving Repr, DecidableEq

/-- IEEE addition on extended double values: NaN is absorbing, opposite
infinities give NaN, an infinity absorbs finite addends. -/
def fpAdd : FpVal → FpVal → FpVal
  | .nan, _ => .nan
  | _, .nan => .nan
  | .fin a, .fin b => .fin (a + b)
  | .posInf, .negInf => .nan
  | .negInf, .posInf => .nan
  | .posInf, _ => .posInf
  | .negInf, _ => .negInf
  | .fin _, .posInf => .posInf
  | .fin _, .negInf => .negInf

/-- IEEE division of an extended double value by a positive finite constant
(the only division the coordinate decoders perform, by 60). -/
def fpDivPos : FpVal → ℚ → FpVal
  | .fin a, c => .fin (a / c)
  | .posInf, _ => .posInf
  | .negInf, _ => .negInf
  | .nan, _ => .nan

/-- IEEE negation on extended double values. -/
def fpNeg : FpVal → FpVal
  | .fin a => .fin (-a)
  | .posInf => .negInf
  | .negInf => .posInf
  | .nan => .nan

/-- ASCII lower-casing of one character, for the case-insensitive forms of
the `from_chars` floating-point grammar. -/
def charLower (c : Char) : Char :=
  if 65 ≤ c.toNat ∧ c.toNat ≤ 90 then Char.ofNat (c.toNat + 32) else c

/-- Case-insensitive prefix test (the pattern is given in lowercase). -/
def startsWithCI : List Char → List Char → Bool
  | _, [] => true
  | [], _ :: _ => false
  | c :: cs, p :: ps => charLower c = p && startsWithCI cs ps

/-- The optional exponent part of the `from_chars` floating-point grammar:
`e`/`E`, an optional sign, then digits.  An ill-formed exponent (no digit
after the `e` and optional sign) is not consumed, contributing exponent 0. -/
def parseExp (t : List Char) : ℤ :=
  match t with
  | [] => 0
  | c :: rest =>
    if charLower c = 'e' then
      match rest with
      | '-' :: r2 =>
        let ds := takeDigits r2
        if ds = [] then 0 else -(digitsToNat ds : ℤ)
      | '+' :: r2 =>
        let ds := takeDigits r2
        if ds = [] then 0 else (digitsToNat ds : ℤ)
      | r2 =>
        let ds := takeDigits r2
        if ds = [] then 0 else (digitsToNat ds : ℤ)
    else 0

/-- Scale a mantissa by a decimal exponent. -/
def applyExp (mag : ℚ) (e : ℤ) : ℚ :=
  if e = 0 then mag
  else if 0 ≤ e then mag * 10 ^ e.toNat
  else mag / 10 ^ (-e).toNat

/-- Unsigned part of the floating-point `std::from_chars` model
(`chars_format::general`): the case-insensitive INF/INFINITY and NAN forms,
or decimal digits optionally containing a point (at least one digit), with an
optional exponent part.  Only the parsed value matters to the source, never
the end pointer, so the INF/INFINITY and NAN(char-sequence) spellings
collapse to their common prefixes. -/
def fromCharsFMag (t : List Char) : Option FpVal :=
  if startsWithCI t (['i', 'n', 'f']) then some .posInf
  else if startsWithCI t (['n', 'a', 'n']) then some .nan
  else
    let ipart := takeDigits t
    let rest2 := t.drop ipart.length
    let fpart := match rest2 with
      | '.' :: r => takeDigits r
      | _ => []
    if ipart = [] ∧ fpart = [] then none
    else
      let rest3 := if rest2.take 1 = ['.'] then rest2.drop (1 + fpart.length) else rest2
      let mag := (digitsToNat ipart : ℚ) + (digitsToNat fpart : ℚ) / 10 ^ fpart.length
      some (.fin (applyExp mag (parseExp rest3)))

/-- Embeds `std::from_chars` into a `double` (`chars_format::general`):
optional minus sign, then the unsigned forms of `fromCharsFMag`.  Parses the
longest valid prefix; `none` is the `errc::invalid_argument` outcome. -/
def fromCharsF (s : List Char) : Option FpVal :=
  match s with
  | '-' :: rest => (fromCharsFMag rest).map fpNeg
  | t => fromCharsFMag t

/-- `OgnMessageType` from OgnParser.h. -/
inductive OgnMessageType
  | UNKNOWN
  | TRAFFIC_REPORT
  | COMMENT
  | STATUS
  | WEATHER
deriving Repr, DecidableEq

/-- `OgnAddressType` from OgnParser.h. -/
inductive OgnAddressType
  | UNKNOWN
  | ICAO
  | FLARM
  | OGN_TRACKER
deriving Repr, DecidableEq

/-- `OgnSymbol` from OgnParser.h. -/
inductive OgnSymbol
  | UNKNOWN
  | GLIDER
  | HELICOPTER
  | PARACHUTE
  | AIRCRAFT
  | JET
  | BALLOON
  | STATIC_OBJECT
  | UAV
  | WEATHERSTATION
deriving Repr, DecidableEq

/-- `OgnAircraftType` from OgnParser.h. -/
inductive OgnAircraftType
  | unknown
  | Aircraft
  | Airship
  | Balloon
  | Copter
  | Drone
  | Glider
  | HangGlider
  | Jet
  | Paraglider
  | Skydiver
  | StaticObstacle
  | TowPlane
deriving Repr, DecidableEq

/-- The fixed 16-entry `AircraftCategoryMap` from OgnParser.cpp (total lookup:
the `find`-miss default `unknown` is unreachable for inputs below 16). -/
def AircraftCategoryMap (v : Nat) : OgnAircraftType :=
  if v = 0x0 then .unknown
  else if v = 0x1 then .Glider
  else if v = 0x2 then .TowPlane
  else if v = 0x3 then .Copter
  else if v = 0x4 then .Skydiver
  else if v = 0x5 then .Aircraft
  else if v = 0x6 then .HangGlider
  else if v = 0x7 then .Paraglider
  else if v = 0x8 then .Aircraft
  else if v = 0x9 then .Jet
  else if v = 0xA then .unknown
  else if v = 0xB then .Balloon
  else if v = 0xC then .Airship
  else if v = 0xD then .Drone
  else if v = 0xE then .unknown
  else if v = 0xF then .StaticObstacle
  else .unknown

/-- The `AprsSymbolMap` lookup from OgnParser.cpp: 2-character symbol key to
`OgnSymbol`, with `find`-miss mapping to `UNKNOWN`. -/
def AprsSymbolMap (k : List Char) : OgnSymbol :=
  if k = ['/', 'z'] then .UNKNOWN
  else if k = ['/', aposChar] then .GLIDER
  else if k = ['/', 'X'] then .HELICOPTER
  else if k = ['/', 'g'] then .PARACHUTE
  else if k = ['\\', '^'] then .AIRCRAFT
  else if k = ['/', '^'] then .JET
  else if k = ['/', 'O'] then .BALLOON
  else if k = ['\\', 'n'] then .STATIC_OBJECT
  else if k = ['/', '_'] then .WEATHERSTATION
  else .UNKNOWN

/-- The `OgnMessage` record from OgnParser.h.  String-view fields are
`List Char`; the NaN-defaulted doubles are `FpVal` (default `.nan`). -/
structure OgnMessage where
  sentence : List Char
  type : OgnMessageType := .UNKNOWN
  sourceId : List Char := []
  timestamp : List Char := []
  latitude : FpVal := .nan
  longitude : FpVal := .nan
  altitude : FpVal := .nan
  symbol : OgnSymbol := .UNKNOWN
  course : ℚ := 0
  speed : ℚ := 0
  aircraftID : List Char := []
  verticalSpeed : ℚ := 0
  rotationRate : List Char := []
  signalStrength : List Char := []
  errorCount : List Char := []
  frequencyOffset : List Char := []
  squawk : List Char := []
  flightlevel : List Char := []
  flightnumber : List Char := []
  gpsInfo : List Char := []
  aircraftType : OgnAircraftType := .unknown
  addressType : OgnAddressType := .UNKNOWN
  address : List Char := []
  stealthMode : Bool := false
  noTrackingFlag : Bool := false
  wind_direction : Nat := 0
  wind_speed : Nat := 0
  wind_gust_speed : Nat := 0
  temperature : Nat := 0
  humidity : Nat := 0
  pressure : ℚ := 0
deriving Repr, DecidableEq

/-- A freshly initialized message holding a sentence, all other fields at
their defaults (the state `parseAprsisMessage` asserts on entry). -/
def mkMessage (s : List Char) : OgnMessage := { sentence := s }

/-- Embeds `OgnParser::decodeLatitude` (OgnParser.cpp lines 159-222);
`FpVal.nan` is the quiet-NaN return of the too-short and `from_chars`-failure
paths, and values parsed from INF/NAN forms propagate through the IEEE
arithmetic. -/
def decodeLatitude (nmeaLatitude : List Char)
    (latitudeDirection latEnhancement : Char) : FpVal :=
  if nmeaLatitude.length < 7 then .nan
  else
    match fromCharsF (nmeaLatitude.take 2) with
    | none => .nan
    | some latitudeDegrees =>
      match fromCharsF (nmeaLatitude.drop 2) with
      | none => .nan
      | some latitudeMinutes =>
        let latitude := fpAdd latitudeDegrees (fpDivPos latitudeMinutes 60)
        let latitude :=
          if latEnhancement ≠ nullChar ∧
             (48 ≤ latEnhancement.toNat ∧ latEnhancement.toNat ≤ 57) then
            fpAdd latitude (.fin (((latEnhancement.toNat - 48 : Nat) : ℚ) * (1 / 1000) / 60))
          else latitude
        if latitudeDirection = 'S' then fpNeg latitude else latitude

/-- Embeds `OgnParser::decodeLongitude` (OgnParser.cpp lines 224-287);
`FpVal.nan` is the quiet-NaN return of the too-short and `from_chars`-failure
paths, and values parsed from INF/NAN forms propagate through the IEEE
arithmetic. -/
def decodeLongitude (nmeaLongitude : List Char)
    (longitudeDirection lonEnhancement : Char) : FpVal :=
  if nmeaLongitude.length < 8 then .nan
  else
    match fromCharsF (nmeaLongitude.take 3) with
    | none => .nan
    | some longitudeDegrees =>
      match fromCharsF (nmeaLongitude.drop 3) with
      | none => .nan
      | some longitudeMinutes =>
        let longitude := fpAdd longitudeDegrees (fpDivPos longitudeMinutes 60)
        let longitude :=
          if lonEnhancement ≠ nullChar ∧
             (48 ≤ lonEnhancement.toNat ∧ lonEnhancement.toNat ≤ 57) then
            fpAdd longitude (.fin (((lonEnhancement.toNat - 48 : Nat) : ℚ) * (1 / 1000) / 60))
          else longitude
        if longitudeDirection = 'W' then fpNeg longitude else longitude

/-- The body split at the first blank (OgnParser.cpp lines 325-333):
`(aprsPart, ognPart)`; without a blank the whole body is the APRS part. -/
def splitBody (body : List Char) : List Char × List Char :=
  match findChar body ' ' with
  | none => (body, [])
  | some blankIndex => (body.take blankIndex, body.drop (blankIndex + 1))

/-- Coordinate block of `parseTrafficReport` (OgnParser.cpp lines 344-365):
fills latitude and longitude, including the optional `!W` precision
enhancement searched in the whole body. -/
def setCoordinates (m : OgnMessage) (aprsPart body : List Char) : OgnMessage :=
  let latString := substrP aprsPart 8 7
  let latDirection := aprsPart.getD 15 nullChar
  let lonString := substrP aprsPart 17 8
  let lonDirection := aprsPart.getD 25 nullChar
  let enh : Char × Char :=
    match findSub body ['!', 'W'] with
    | some precisionIndex =>
      if body.length > precisionIndex + 4 then
        (body.getD (precisionIndex + 2) nullChar, body.getD (precisionIndex + 3) nullChar)
      else (nullChar, nullChar)
    | none => (nullChar, nullChar)
  { m with
    latitude := decodeLatitude latString latDirection enh.1,
    longitude := decodeLongitude lonString lonDirection enh.2 }

/-- Wind-direction step of the weather branch (OgnParser.cpp lines 383-389). -/
def setWindDirection (m : OgnMessage) (aprsPart : List Char) : OgnMessage :=
  match fromCharsU32 (substrP aprsPart (26 + 1) 3) with
  | some windDir => { m with wind_direction := windDir }
  | none => m

/-- Wind-speed step of the weather branch (OgnParser.cpp lines 391-400). -/
def setWindSpeed (m : OgnMessage) (aprsPart : List Char) : OgnMessage :=
  match findCharFrom aprsPart '/' 26 with
  | some slashAfterUnderscore =>
    match fromCharsU32 (substrP aprsPart (slashAfterUnderscore + 1) 3) with
    | some windSpd => { m with wind_speed := windSpd }
    | none => m
  | none => m

/-- Wind-gust step of the weather branch (OgnParser.cpp lines 401-410). -/
def setWindGust (m : OgnMessage) (aprsPart : List Char) : OgnMessage :=
  match findCharFrom aprsPart 'g' 26 with
  | some gIndex =>
    match fromCharsU32 (substrP aprsPart (gIndex + 1) 3) with
    | some gust => { m with wind_gust_speed := gust }
    | none => m
  | none => m

/-- Temperature step of the weather branch (OgnParser.cpp lines 411-420). -/
def setWeatherTemperature (m : OgnMessage) (aprsPart : List Char) : OgnMessage :=
  match findCharFrom aprsPart 't' 26 with
  | some tIndex =>
    match fromCharsU32 (substrP aprsPart (tIndex + 1) 3) with
    | some temp => { m with temperature := temp }
    | none => m
  | none => m

/-- Humidity step of the weather branch (OgnParser.cpp lines 421-430). -/
def setWeatherHumidity (m : OgnMessage) (aprsPart : List Char) : OgnMessage :=
  match findCharFrom aprsPart 'h' 26 with
  | some hIndex =>
    match fromCharsU32 (substrP aprsPart (hIndex + 1) 2) with
    | some hum => { m with humidity := hum }
    | none => m
  | none => m

/-- Pressure step of the weather branch (OgnParser.cpp lines 431-445):
digits after `b`, truncated at the next space, divided by 10. -/
def setWeatherPressure (m : OgnMessage) (aprsPart : List Char) : OgnMessage :=
  match findCharFrom aprsPart 'b' 26 with
  | some bIndex =>
    let presStr := aprsPart.drop (bIndex + 1)
    let presStr :=
      match findChar presStr ' ' with
      | some endPos => presStr.take endPos
      | none => presStr
    match fromCharsU32 presStr with
    | some pressureTenths => { m with pressure := (pressureTenths : ℚ) / 10 }
    | none => m
  | none => m

/-- The weather branch of `parseTrafficReport` (OgnParser.cpp lines 380-445),
minus the kind change, which the caller performs. -/
def parseWeatherFields (m : OgnMessage) (aprsPart : List Char) : OgnMessage :=
  setWeatherPressure
    (setWeatherHumidity
      (setWeatherTemperature
        (setWindGust
          (setWindSpeed (setWindDirection m aprsPart) aprsPart) aprsPart) aprsPart) aprsPart)
    aprsPart

/-- The non-weather branch of `parseTrafficReport` (OgnParser.cpp lines
446-474): course/speed at fixed offsets, then `/A=` altitude (feet to
meters). -/
def parseCourseSpeedAlt (m : OgnMessage) (aprsPart : List Char) : OgnMessage :=
  let m :=
    if 34 ≤ aprsPart.length ∧ aprsPart.getD 30 nullChar = '/' then
      let m1 :=
        match fromCharsI32 (substrP aprsPart 27 3) with
        | some course => { m with course := (course : ℚ) }
        | none => m
      match fromCharsI32 (substrP aprsPart 31 3) with
      | some speed => { m1 with speed := (speed : ℚ) }
      | none => m1
    else m
  match findSub aprsPart ['/', 'A', '='] with
  | some altitudeIndex =>
    match fromCharsI32 (substrP aprsPart (altitudeIndex + 3) 6) with
    | some altitudeFeet => { m with altitude := .fin ((altitudeFeet : ℚ) * (3048 / 10000)) }
    | none => m
  | none => m

/-- One iteration of the OGN-extension token loop (OgnParser.cpp lines
490-547): classify one space-delimited item and update the message. -/
def processOgnItem (m : OgnMessage) (item : List Char) : OgnMessage :=
  if listStartsWith item (['i', 'd']) then { m with aircraftID := item.drop 2 }
  else if listStartsWith item (['t']) then
    match fromCharsI32 (item.drop 1) with
    | some temp => { m with temperature := (temp % (2 ^ 32 : Int)).toNat }
    | none => m
  else if listStartsWith item (['h']) then
    match fromCharsU32 (item.drop 1) with
    | some hum => { m with humidity := hum }
    | none => m
  else if listStartsWith item (['b']) then
    match fromCharsU32 (item.drop 1) with
    | some pressureTenths => { m with pressure := (pressureTenths : ℚ) / 10 }
    | none => m
  else if listEndsWith item (['f', 'p', 'm']) then
    match findChar item 'f' with
    | some fpmIndex =>
      let vspeedStr := item.take fpmIndex
      let vspeedStr :=
        if vspeedStr ≠ [] ∧ vspeedStr.headD nullChar = '+' then vspeedStr.drop 1 else vspeedStr
      match fromCharsI32 vspeedStr with
      | some vspeedFpm => { m with verticalSpeed := (vspeedFpm : ℚ) * (508 / 100000) }
      | none => m
    | none => m
  else if listEndsWith item (['r', 'o', 't']) then { m with rotationRate := item }
  else if listEndsWith item (['d', 'B']) then { m with signalStrength := item }
  else if listEndsWith item (['e']) then { m with errorCount := item }
  else if listEndsWith item (['k', 'H', 'z']) then { m with frequencyOffset := item }
  else if listStartsWith item (['F', 'L']) then { m with flightlevel := item }
  else if listStartsWith item (['A']) ∧ 2 < item.length ∧ item.getD 2 nullChar = ':' then
    match findChar item ':' with
    | some colonPos => { m with flightnumber := item.drop (colonPos + 1) }
    | none => m
  else if listStartsWith item (['S', 'q']) then { m with squawk := item.drop 2 }
  else if listStartsWith item (['g', 'p', 's', ':']) then { m with gpsInfo := item.drop 4 }
  else m

/-- The whitespace tokenization of the OGN part (OgnParser.cpp lines 477-488,
549): maximal nonempty runs between spaces. -/
def tokenizeAux : List Char → List Char → List (List Char)
  | [], cur => if cur = [] then [] else [cur.reverse]
  | c :: rest, cur =>
    if c = ' ' then
      if cur = [] then tokenizeAux rest [] else cur.reverse :: tokenizeAux rest []
    else tokenizeAux rest (c :: cur)

/-- Tokens of the OGN extension part. -/
def tokenize (s : List Char) : List (List Char) := tokenizeAux s []

/-- Embeds the identity-decoding block of `parseTrafficReport` (OgnParser.cpp
lines 553-575): hex-parse the captured aircraft-id token and unpack flags,
category, address type and address. -/
def decodeIdentity (m : OgnMessage) : OgnMessage :=
  if m.aircraftID ≠ [] then
    match fromCharsHexU32 m.aircraftID with
    | some hexcode =>
      let m := { m with
        stealthMode := hexcode &&& 0x80000000 != 0,
        noTrackingFlag := hexcode &&& 0x40000000 != 0,
        aircraftType := AircraftCategoryMap ((hexcode >>> 26) &&& 0xF),
        addressType :=
          match (hexcode >>> 24) &&& 0x3 with
          | 0 => .UNKNOWN
          | 1 => .ICAO
          | 2 => .FLARM
          | _ => .OGN_TRACKER }
      if 8 ≤ m.aircraftID.length then { m with address := substrP m.aircraftID 2 6 }
      else m
    | none => m
  else m

/-- Embeds `OgnParser::parseTrafficReport` (OgnParser.cpp lines 289-580). -/
def parseTrafficReport (m : OgnMessage) (header body : List Char) : OgnMessage :=
  if body.getD 0 nullChar ≠ '/' then { m with type := .UNKNOWN }
  else
    match findChar header '>' with
    | none => { m with type := .UNKNOWN }
    | some index =>
      let m1 := { m with type := .TRAFFIC_REPORT, sourceId := header.take index }
      let parts := splitBody body
      let aprsPart := parts.1
      let ognPart := parts.2
      if ¬ (listStartsWith aprsPart (['/']) = true ∧ 30 ≤ aprsPart.length) then
        { m1 with type := .UNKNOWN }
      else
        let m2 := { m1 with timestamp := substrP aprsPart 1 6 }
        let m3 := setCoordinates m2 aprsPart body
        let sym := AprsSymbolMap [aprsPart.getD 16 nullChar, aprsPart.getD 26 nullChar]
        let m4 := { m3 with symbol := sym }
        let m5 :=
          if sym = .WEATHERSTATION then
            parseWeatherFields { m4 with type := .WEATHER } aprsPart
          else parseCourseSpeedAlt m4 aprsPart
        let m6 := (tokenize ognPart).foldl processOgnItem m5
        decodeIdentity m6

/-- Embeds `OgnParser::parseCommentMessage` (OgnParser.cpp lines 582-585). -/
def parseCommentMessage (m : OgnMessage) : OgnMessage := { m with type := .COMMENT }

/-- Embeds `OgnParser::parseStatusMessage` (OgnParser.cpp lines 587-592):
only the kind is recorded, header and body are ignored. -/
def parseStatusMessage (m : OgnMessage) (_header _body : List Char) : OgnMessage :=
  { m with type := .STATUS }

/-- Embeds `OgnParser::parseAprsisMessage` (OgnParser.cpp lines 96-157). -/
def parseAprsisMessage (m : OgnMessage) : OgnMessage :=
  let sentence := m.sentence
  if listStartsWith sentence (['#']) then parseCommentMessage m
  else
    match findChar sentence ':' with
    | none => { m with type := .UNKNOWN }
    | some colonIndex =>
      let header := sentence.take colonIndex
      let body := sentence.drop (colonIndex + 1)
      if header.length < 5 ∨ body.length < 5 then { m with type := .UNKNOWN }
      else if listStartsWith body (['/']) then parseTrafficReport m header body
      else if listStartsWith body (['>']) then parseStatusMessage m header body
      else { m with type := .UNKNOWN }

/-- Decimal digits of a natural number, most significant first (the model of
`std::to_string` / `printf` `%d`-style rendering on nonnegative values). -/
def natToChars (n : Nat) : List Char := Nat.toDigits 10 n

/-- Left-pad with `'0'` to the given width (`printf` zero padding). -/
def padZeros (w : Nat) (s : List Char) : List Char :=
  List.replicate (w - s.length) '0' ++ s

/-- Absolute value on ℚ, the model of `std::abs` on doubles (kept as an
explicit definition so that proofs can evaluate it). -/
def ratAbs (q : ℚ) : ℚ := if q < 0 then -q else q

/-- Truncation toward zero for a nonnegative rational, the model of the C++
`static_cast<int>` narrowing used by the formatters (always applied after
taking the absolute value). -/
def ratTruncNat (q : ℚ) : ℕ := q.num.toNat / q.den

/-- Rounding a nonnegative rational to the nearest natural number with ties to
even, the model of the decimal rounding performed by `printf`-family
fixed-point formatting under the default IEEE round-to-nearest mode. -/
def rnd (q : ℚ) : ℕ :=
  let f : ℕ := ratTruncNat q
  if q - (f : ℚ) < 1 / 2 then f
  else if (1 : ℚ) / 2 < q - (f : ℚ) then f + 1
  else if f % 2 = 0 then f else f + 1

/-- `snprintf("%05.2f", minutes)` for the nonnegative minute values produced by
the coordinate formatters: two decimals, zero-padded to width 5. -/
def fmtMinutes (minutes : ℚ) : List Char :=
  let n := rnd (minutes * 100)
  padZeros 5 (natToChars (n / 100) ++ '.' :: padZeros 2 (natToChars (n % 100)))

/-- Embeds `OgnParser::formatLatitude` (OgnParser.cpp lines 667-678):
`"%02d%05.2f%s"` over truncated degrees, decimal minutes and direction. -/
def formatLatitude (latitude : ℚ) : List Char :=
  let direction := if 0 ≤ latitude then 'N' else 'S'
  let l := ratAbs latitude
  let degrees := ratTruncNat l
  let minutes := (l - (degrees : ℚ)) * 60
  padZeros 2 (natToChars degrees) ++ fmtMinutes minutes ++ [direction]

/-- Embeds `OgnParser::formatLongitude` (OgnParser.cpp lines 680-691):
`"%03d%05.2f%s"`. -/
def formatLongitude (longitude : ℚ) : List Char :=
  let direction := if 0 ≤ longitude then 'E' else 'W'
  let l := ratAbs longitude
  let degrees := ratTruncNat l
  let minutes := (l - (degrees : ℚ)) * 60
  padZeros 3 (natToChars degrees) ++ fmtMinutes minutes ++ [direction]

/-- `snprintf("%.4f", x)`: sign, integer part, four decimals. -/
def fmtFixed4 (x : ℚ) : List Char :=
  let sign : List Char := if x < 0 then ['-'] else []
  let n := rnd (ratAbs x * 10000)
  sign ++ natToChars (n / 10000) ++ '.' :: padZeros 4 (natToChars (n % 10000))

/-- Embeds `OgnParser::formatFilter` (OgnParser.cpp lines 733-739). -/
def formatFilter (latitude longitude : ℚ) (receiveRadius : Nat) : List Char :=
  ("filter r/").toList ++ fmtFixed4 latitude ++ '/' :: fmtFixed4 longitude ++
    '/' :: natToChars receiveRadius ++ (" t/o").toList

/-- Embeds `OgnParser::formatFilterCommand` (OgnParser.cpp lines 741-747). -/
def formatFilterCommand (latitude longitude : ℚ) (receiveRadiusKm : Nat) : List Char :=
  ("# ").toList ++ formatFilter latitude longitude receiveRadiusKm ++ ['\n']

/-- The bounded character-sum loop of `OgnParser::calculatePassword`
(OgnParser.cpp lines 697-701): ASCII sum of the first `fuel` characters. -/
def passwordSumAux : List Char → Nat → Nat
  | _, 0 => 0
  | [], _ + 1 => 0
  | c :: rest, n + 1 => c.toNat + passwordSumAux rest n

/-- Embeds `OgnParser::calculatePassword` (OgnParser.cpp lines 693-703). -/
def calculatePassword (callSign : List Char) : List Char :=
  natToChars (passwordSumAux callSign 6 % 10000)

/-- Embeds `OgnParser::formatLoginString` (OgnParser.cpp lines 705-731). -/
def formatLoginString (callSign : List Char) (latitude longitude : ℚ)
    (receiveRadius : Nat) (appName appVersion : List Char) : List Char :=
  ("user ").toList ++ callSign ++ (" pass ").toList ++ calculatePassword callSign ++
    (" vers ").toList ++ appName ++ (" ").toList ++ appVersion ++ (" ").toList ++
    formatFilter latitude longitude receiveRadius ++ ['\n']

/-- Tolerance checker used to state coordinate round-trip properties: the
decoded result is finite and lies within `1/10000` degree of `x`. -/
def coordErrOk (res : FpVal) (x : ℚ) : Bool :=
  match res with
  | .fin q => decide (ratAbs (q - x) ≤ 1 / 10000)
  | _ => false

/-- Concrete sentences used as evaluation inputs for the claims. -/
def sentenceC1 : List Char := ("FLRDDE626>APRS,qAS,EGHL:/074548h5111.32N").toList

def sentenceC5 : List Char :=
  ("FLRDDE626>APRS,qAS,EGHL:/074548h5111.32N/00102.04W^086/007/A=000607 id0adde626").toList

def sentenceC6 : List Char :=
  ("FNT08075C>OGNFNT,qAS,Hoernle2:/222245h4803.92N/00800.93E_292/005g010t030h01b65526 5.2dB").toList

def sentenceC9 : List Char := ("ABCDE>X:>hello").toList

def sentenceC10 : List Char :=
  ("ICA4D21C2>OGADSB,qAS,HLST:/001140h4741.90N/01104.20E^124/460/A=034868 t-12").toList

/- ### Helper lemmas -/

lemma passwordSumAux_eq_sum_take (cs : List Char) :
    ∀ n, passwordSumAux cs n = ((cs.take n).map Char.toNat).sum := by
  induction cs with
  | nil => intro n; cases n <;> simp [passwordSumAux]
  | cons c rest ih =>
    intro n
    cases n with
    | zero => simp [passwordSumAux]
    | succ k => simp [passwordSumAux, ih k]

lemma findChar_lt_length {s : List Char} {c : Char} {i : Nat}
    (h : findChar s c = some i) : i < s.length := by
  induction s generalizing i with
  | nil => simp [findChar] at h
  | cons a rest ih =>
    rw [findChar] at h
    split at h
    · cases h
      simp
    · cases hf : findChar rest c with
      | none => rw [hf] at h; simp at h
      | some j =>
        rw [hf] at h
        simp at h
        have := ih hf
        simp
        omega

lemma listStartsWith_single {s : List Char} {c : Char}
    (h : listStartsWith s [c] = true) : ∃ t, s = c :: t := by
  cases s with
  | nil => simp [listStartsWith] at h
  | cons a t =>
    rw [listStartsWith] at h
    simp at h
    exact ⟨t, by rw [h.1]⟩

/- ### Rational-evaluation helpers for the formatters -/

lemma ratTruncNat_eq (q : ℚ) (f : ℕ) (h1 : (f : ℚ) ≤ q) (h2 : q < (f : ℚ) + 1) :
    ratTruncNat q = f := by
  have h0 : 0 ≤ q := le_trans (by positivity) h1
  have hnum : 0 ≤ q.num := Rat.num_nonneg.mpr h0
  have hfloor : ⌊q⌋ = (f : ℤ) := by
    rw [Int.floor_eq_iff]
    constructor
    · exact_mod_cast h1
    · push_cast
      linarith
  rw [Rat.floor_def] at hfloor
  have hc : ((q.num.toNat / q.den : ℕ) : ℤ) = (f : ℤ) := by
    rw [Int.natCast_div, Int.toNat_of_nonneg hnum]
    exact hfloor
  exact_mod_cast hc

lemma rnd_eq_low (q : ℚ) (f : ℕ) (h1 : (f : ℚ) ≤ q) (h2 : q < (f : ℚ) + 1 / 2) :
    rnd q = f := by
  have hfl : ratTruncNat q = f := ratTruncNat_eq q f h1 (by linarith)
  unfold rnd
  simp only [hfl]
  rw [if_pos (by linarith)]

lemma fmtFixed4_neg48 : fmtFixed4 (-48 : ℚ) = ("-48.0000").toList := by
  have e1 : rnd (ratAbs (-48 : ℚ) * 10000) = 480000 := by
    apply rnd_eq_low <;> norm_num [ratAbs]
  unfold fmtFixed4
  rw [e1, if_pos (show (-48 : ℚ) < 0 by norm_num)]
  decide

lemma fmtFixed4_pos785 : fmtFixed4 (785123456 / 100000000 : ℚ) = ("7.8512").toList := by
  have e1 : rnd (ratAbs (785123456 / 100000000 : ℚ) * 10000) = 78512 := by
    apply rnd_eq_low <;> norm_num [ratAbs]
  unfold fmtFixed4
  rw [e1, if_neg (show ¬ (785123456 / 100000000 : ℚ) < 0 by norm_num)]
  decide

lemma formatLatitude_nonneg_eq (x : ℚ) (d n : ℕ)
    (hx : 0 ≤ x)
    (hd1 : (d : ℚ) ≤ x) (hd2 : x < (d : ℚ) + 1)
    (hn1 : (n : ℚ) ≤ (x - (d : ℚ)) * 60 * 100)
    (hn2 : (x - (d : ℚ)) * 60 * 100 < (n : ℚ) + 1 / 2) :
    formatLatitude x =
      padZeros 2 (natToChars d) ++
        padZeros 5 (natToChars (n / 100) ++ '.' :: padZeros 2 (natToChars (n % 100))) ++ ['N'] := by
  have habs : ratAbs x = x := by rw [ratAbs, if_neg (not_lt.mpr hx)]
  simp only [formatLatitude, fmtMinutes, habs, ratTruncNat_eq x d hd1 hd2, if_pos hx]
  rw [show ((x - (d : ℚ)) * 60) * 100 = (x - (d : ℚ)) * 60 * 100 from rfl]
  rw [rnd_eq_low ((x - (d : ℚ)) * 60 * 100) n hn1 hn2]

lemma formatLatitude_neg_eq (x : ℚ) (d n : ℕ)
    (hx : x < 0)
    (hd1 : (d : ℚ) ≤ -x) (hd2 : -x < (d : ℚ) + 1)
    (hn1 : (n : ℚ) ≤ (-x - (d : ℚ)) * 60 * 100)
    (hn2 : (-x - (d : ℚ)) * 60 * 100 < (n : ℚ) + 1 / 2) :
    formatLatitude x =
      padZeros 2 (natToChars d) ++
        padZeros 5 (natToChars (n / 100) ++ '.' :: padZeros 2 (natToChars (n % 100))) ++ ['S'] := by
  have habs : ratAbs x = -x := by rw [ratAbs, if_pos hx]
  simp only [formatLatitude, fmtMinutes, habs, ratTruncNat_eq (-x) d hd1 hd2,
    if_neg (not_le.mpr hx)]
  rw [show ((-x - (d : ℚ)) * 60) * 100 = (-x - (d : ℚ)) * 60 * 100 from rfl]
  rw [rnd_eq_low ((-x - (d : ℚ)) * 60 * 100) n hn1 hn2]

lemma formatLongitude_nonneg_eq (x : ℚ) (d n : ℕ)
    (hx : 0 ≤ x)
    (hd1 : (d : ℚ) ≤ x) (hd2 : x < (d : ℚ) + 1)
    (hn1 : (n : ℚ) ≤ (x - (d : ℚ)) * 60 * 100)
    (hn2 : (x - (d : ℚ)) * 60 * 100 < (n : ℚ) + 1 / 2) :
    formatLongitude x =
      padZeros 3 (natToChars d) ++
        padZeros 5 (natToChars (n / 100) ++ '.' :: padZeros 2 (natToChars (n % 100))) ++ ['E'] := by
  have habs : ratAbs x = x := by rw [ratAbs, if_neg (not_lt.mpr hx)]
  simp only [formatLongitude, fmtMinutes, habs, ratTruncNat_eq x d hd1 hd2, if_pos hx]
  rw [show ((x - (d : ℚ)) * 60) * 100 = (x - (d : ℚ)) * 60 * 100 from rfl]
  rw [rnd_eq_low ((x - (d : ℚ)) * 60 * 100) n hn1 hn2]

lemma formatLongitude_neg_eq (x : ℚ) (d n : ℕ)
    (hx : x < 0)
    (hd1 : (d : ℚ) ≤ -x) (hd2 : -x < (d : ℚ) + 1)
    (hn1 : (n : ℚ) ≤ (-x - (d : ℚ)) * 60 * 100)
    (hn2 : (-x - (d : ℚ)) * 60 * 100 < (n : ℚ) + 1 / 2) :
    formatLongitude x =
      padZeros 3 (natToChars d) ++
        padZeros 5 (natToChars (n / 100) ++ '.' :: padZeros 2 (natToChars (n % 100))) ++ ['W'] := by
  have habs : ratAbs x = -x := by rw [ratAbs, if_pos hx]
  simp only [formatLongitude, fmtMinutes, habs, ratTruncNat_eq (-x) d hd1 hd2,
    if_neg (not_le.mpr hx)]
  rw [show ((-x - (d : ℚ)) * 60) * 100 = (-x - (d : ℚ)) * 60 * 100 from rfl]
  rw [rnd_eq_low ((-x - (d : ℚ)) * 60 * 100) n hn1 hn2]

lemma fmtLat_0 : formatLatitude 0 = ("0000.00N").toList := by
  rw [formatLatitude_nonneg_eq 0 0 0 (by norm_num) (by norm_num) (by norm_num) (by norm_num)
    (by norm_num)]
  decide

lemma fmtLat_89 : formatLatitude (899999 / 10000 : ℚ) = ("8959.99N").toList := by
  rw [formatLatitude_nonneg_eq (899999 / 10000 : ℚ) 89 5999 (by norm_num) (by norm_num)
    (by norm_num) (by norm_num) (by norm_num)]
  decide

lemma fmtLat_neg89 : formatLatitude (-899999 / 10000 : ℚ) = ("8959.99S").toList := by
  rw [formatLatitude_neg_eq (-899999 / 10000 : ℚ) 89 5999 (by norm_num) (by norm_num)
    (by norm_num) (by norm_num) (by norm_num)]
  decide

lemma fmtLat_51 : formatLatitude (30713245 / 600000 : ℚ) = ("5111.32N").toList := by
  rw [formatLatitude_nonneg_eq (30713245 / 600000 : ℚ) 51 1132 (by norm_num) (by norm_num)
    (by norm_num) (by norm_num) (by norm_num)]
  decide

lemma fmtLon_0 : formatLongitude 0 = ("00000.00E").toList := by
  rw [formatLongitude_nonneg_eq 0 0 0 (by norm_num) (by norm_num) (by norm_num) (by norm_num)
    (by norm_num)]
  decide

lemma fmtLon_179 : formatLongitude (1799999 / 10000 : ℚ) = ("17959.99E").toList := by
  rw [formatLongitude_nonneg_eq (1799999 / 10000 : ℚ) 179 5999 (by norm_num) (by norm_num)
    (by norm_num) (by norm_num) (by norm_num)]
  decide

lemma fmtLon_neg179 : formatLongitude (-1799999 / 10000 : ℚ) = ("17959.99W").toList := by
  rw [formatLongitude_neg_eq (-1799999 / 10000 : ℚ) 179 5999 (by norm_num) (by norm_num)
    (by norm_num) (by norm_num) (by norm_num)]
  decide

lemma fmtLon_785 : formatLongitude (785123456 / 100000000 : ℚ) = ("00751.07E").toList := by
  rw [formatLongitude_nonneg_eq (785123456 / 100000000 : ℚ) 7 5107 (by norm_num) (by norm_num)
    (by norm_num) (by norm_num) (by norm_num)]
  decide

lemma decLat_0 : decodeLatitude (("0000.00N").toList) 'N' nullChar =
    FpVal.fin ((0 : ℚ) + (0 : ℚ) / 10 ^ 0 + ((0 : ℚ) + (0 : ℚ) / 10 ^ 2) / 60) := rfl

lemma decLat_89 : decodeLatitude (("8959.99N").toList) 'N' nullChar =
    FpVal.fin ((89 : ℚ) + (0 : ℚ) / 10 ^ 0 + ((59 : ℚ) + (99 : ℚ) / 10 ^ 2) / 60) := rfl

lemma decLat_neg89 : decodeLatitude (("8959.99S").toList) 'S' nullChar =
    FpVal.fin (-((89 : ℚ) + (0 : ℚ) / 10 ^ 0 + ((59 : ℚ) + (99 : ℚ) / 10 ^ 2) / 60)) := rfl

lemma decLat_51 : decodeLatitude (("5111.32N").toList) 'N' nullChar =
    FpVal.fin ((51 : ℚ) + (0 : ℚ) / 10 ^ 0 + ((11 : ℚ) + (32 : ℚ) / 10 ^ 2) / 60) := rfl

lemma decLat_51e : decodeLatitude (("5111.32N").toList) 'N' '4' =
    FpVal.fin ((51 : ℚ) + (0 : ℚ) / 10 ^ 0 + ((11 : ℚ) + (32 : ℚ) / 10 ^ 2) / 60 +
      (4 : ℚ) * (1 / 1000) / 60) := rfl

lemma decLon_0 : decodeLongitude (("00000.00E").toList) 'E' nullChar =
    FpVal.fin ((0 : ℚ) + (0 : ℚ) / 10 ^ 0 + ((0 : ℚ) + (0 : ℚ) / 10 ^ 2) / 60) := rfl

lemma decLon_179 : decodeLongitude (("17959.99E").toList) 'E' nullChar =
    FpVal.fin ((179 : ℚ) + (0 : ℚ) / 10 ^ 0 + ((59 : ℚ) + (99 : ℚ) / 10 ^ 2) / 60) := rfl

lemma decLon_neg179 : decodeLongitude (("17959.99W").toList) 'W' nullChar =
    FpVal.fin (-((179 : ℚ) + (0 : ℚ) / 10 ^ 0 + ((59 : ℚ) + (99 : ℚ) / 10 ^ 2) / 60)) := rfl

lemma decLon_785 : decodeLongitude (("00751.07E").toList) 'E' nullChar =
    FpVal.fin ((7 : ℚ) + (0 : ℚ) / 10 ^ 0 + ((51 : ℚ) + (7 : ℚ) / 10 ^ 2) / 60) := rfl

/- ### Claim C7 -/

/-- C7: `formatLoginString("ENR12345", -48.0, 7.85123456, 99, "Enroute",
"1.99")` returns exactly the expected login line, with password 379 and the
radius filter rendering the coordinates to four decimals, and for every
callsign the pass value is the decimal rendering of the sum of the ASCII
values of up to the first 6 callsign characters modulo 10000. -/
theorem C7_loginString :
    formatLoginString (("ENR12345").toList) (-48) (785123456 / 100000000 : ℚ) 99
        (("Enroute").toList) (("1.99").toList) =
      ("user ENR12345 pass 379 vers Enroute 1.99 filter r/-48.0000/7.8512/99 t/o\n").toList ∧
    ∀ callSign : List Char,
      calculatePassword callSign =
        natToChars (((callSign.take 6).map Char.toNat).sum % 10000) := by
  refine ⟨?_, fun callSign => ?_⟩
  · unfold formatLoginString formatFilter
    rw [fmtFixed4_neg48, fmtFixed4_pos785]
    decide
  · unfold calculatePassword
    rw [passwordSumAux_eq_sum_take]

/- ### Claim C8 -/

/-- C8: round-trip `decodeLatitude (formatLatitude x) dir` stays within `1e-4`
degrees of `x` for representative latitudes (0, near ±90, and a value whose
sub-0.01-minute remainder exercises the precision-enhancement digit, both with
a null and with a matching enhancement character), and likewise
`decodeLongitude (formatLongitude x) dir` for representative longitudes
(0, near ±180, 7.85123456). -/
theorem C8_roundTrip :
    coordErrOk (decodeLatitude (formatLatitude 0) 'N' nullChar) 0 = true ∧
    coordErrOk (decodeLatitude (formatLatitude (899999 / 10000)) 'N' nullChar)
      (899999 / 10000) = true ∧
    coordErrOk (decodeLatitude (formatLatitude (-899999 / 10000)) 'S' nullChar)
      (-899999 / 10000) = true ∧
    coordErrOk (decodeLatitude (formatLatitude (30713245 / 600000)) 'N' nullChar)
      (30713245 / 600000) = true ∧
    coordErrOk (decodeLatitude (formatLatitude (30713245 / 600000)) 'N' '4')
      (30713245 / 600000) = true ∧
    coordErrOk (decodeLongitude (formatLongitude 0) 'E' nullChar) 0 = true ∧
    coordErrOk (decodeLongitude (formatLongitude (1799999 / 10000)) 'E' nullChar)
      (1799999 / 10000) = true ∧
    coordErrOk (decodeLongitude (formatLongitude (-1799999 / 10000)) 'W' nullChar)
      (-1799999 / 10000) = true ∧
    coordErrOk (decodeLongitude (formatLongitude (785123456 / 100000000)) 'E' nullChar)
      (785123456 / 100000000) = true := by
  refine ⟨?_, ?_, ?_, ?_, ?_, ?_, ?_, ?_, ?_⟩
  · rw [fmtLat_0, decLat_0]
    simp only [coordErrOk, decide_eq_true_eq, ratAbs]
    split_ifs <;> norm_num
  · rw [fmtLat_89, decLat_89]
    simp only [coordErrOk, decide_eq_true_eq, ratAbs]
    split_ifs <;> norm_num
  · rw [show ((-899999 : ℚ) / 10000) = (-899999 / 10000 : ℚ) from rfl, fmtLat_neg89, decLat_neg89]
    simp only [coordErrOk, decide_eq_true_eq, ratAbs]
    split_ifs <;> norm_num
  · rw [fmtLat_51, decLat_51]
    simp only [coordErrOk, decide_eq_true_eq, ratAbs]
    split_ifs <;> norm_num
  · rw [fmtLat_51, decLat_51e]
    simp only [coordErrOk, decide_eq_true_eq, ratAbs]
    split_ifs <;> norm_num
  · rw [fmtLon_0, decLon_0]
    simp only [coordErrOk, decide_eq_true_eq, ratAbs]
    split_ifs <;> norm_num
  · rw [fmtLon_179, decLon_179]
    simp only [coordErrOk, decide_eq_true_eq, ratAbs]
    split_ifs <;> norm_num
  · rw [fmtLon_neg179, decLon_neg179]
    simp only [coordErrOk, decide_eq_true_eq, ratAbs]
    split_ifs <;> norm_num
  · rw [fmtLon_785, decLon_785]
    simp only [coordErrOk, decide_eq_true_eq, ratAbs]
    split_ifs <;> norm_num

/- ### Claim C1 (counterexample part) -/

/-- C1 is false as stated: on a traffic-report line whose `aprsPart` is
shorter than 30 characters the whole-sentence kind is `Unknown`, but the
source id has already been populated from the header (OgnParser.cpp line 322
runs before the length check at line 336), so not all fields beyond the
sentence text remain at their defaults. -/
theorem C1_counterexample :
    listStartsWith (sentenceC1.drop 24) (['/']) = true ∧
    (splitBody (sentenceC1.drop 24)).1.length < 30 ∧
    (parseAprsisMessage (mkMessage sentenceC1)).type = OgnMessageType.UNKNOWN ∧
    (parseAprsisMessage (mkMessage sentenceC1)).sourceId = ("FLRDDE626").toList ∧
    ("FLRDDE626").toList ≠ ([] : List Char) := by
  decide

/- ### Claim C2 (counterexample part) -/

/-- C2 is false as literally stated: the input `"#"` contains no colon, yet
the decoded kind is `Comment`, not `Unknown`, because comment detection
(OgnParser.cpp line 105) runs before the colon split. -/
theorem C2_counterexample :
    findChar (("#").toList) ':' = none ∧
    (parseAprsisMessage (mkMessage (("#").toList))).type = OgnMessageType.COMMENT ∧
    OgnMessageType.COMMENT ≠ OgnMessageType.UNKNOWN := by
  decide

/- ### Claim C5 (counterexample part) -/

/-- C5 is false as stated: a lowercase identity token hex-parses fine, but the
address is stored verbatim (OgnParser.cpp line 572 takes a plain substring
view), with no uppercase conversion. -/
theorem C5_counterexample :
    (parseAprsisMessage (mkMessage sentenceC5)).aircraftID = ("0adde626").toList ∧
    (parseAprsisMessage (mkMessage sentenceC5)).address = ("dde626").toList ∧
    ("dde626").toList ≠ ("DDE626").toList := by
  decide

/- ### Claim C9 (counterexample part) -/

/-- C9 is false as stated: on a status line the kind is `Status` but
`parseStatusMessage` (OgnParser.cpp lines 587-592) ignores the header, so the
source id stays at its empty default instead of the header text before
`'>'`. -/
theorem C9_counterexample :
    (parseAprsisMessage (mkMessage sentenceC9)).type = OgnMessageType.STATUS ∧
    (parseAprsisMessage (mkMessage sentenceC9)).sourceId = ([] : List Char) ∧
    ([] : List Char) ≠ ("ABCDE").toList := by
  decide

/- ### Claim C10 -/

/-- C10: in the extension tokenizer, a token starting with `t` (and not with
`id`) whose remainder parses as a negative signed integer stores the value
reduced modulo `2^32` in the unsigned temperature field; in particular the
token `t-12` in a traffic report yields temperature 4294967284. -/
theorem C10_temperatureWrap :
    (∀ (m : OgnMessage) (item : List Char) (n : Int),
      listStartsWith item (['t']) = true →
      listStartsWith item (['i', 'd']) = false →
      fromCharsI32 (item.drop 1) = some n →
      n < 0 →
      (processOgnItem m item).temperature = (n % (2 ^ 32 : Int)).toNat) ∧
    (parseAprsisMessage (mkMessage sentenceC10)).temperature = 4294967284 := by
  constructor
  · intro m item n h1 h2 h3 _h4
    unfold processOgnItem
    rw [if_neg (by simp [h2]), if_pos h1, h3]
  · decide

/-- Witness for C10: the hypotheses are satisfiable, at message defaults and
token `t-12`, where `-12 mod 2^32` is stored. -/
theorem C10_witness :
    (processOgnItem (mkMessage []) (("t-12").toList)).temperature =
      ((-12 : Int) % (2 ^ 32 : Int)).toNat :=
  C10_temperatureWrap.1 (mkMessage []) (("t-12").toList) (-12)
    (by decide) (by decide) (by decide) (by decide)

/- ### Claim C4 -/

lemma bne_and_two_pow (v i : Nat) : ((v &&& 2 ^ i) != 0) = v.testBit i := by
  rw [Nat.and_two_pow]
  cases h : v.testBit i <;> simp [h, Nat.pos_iff_ne_zero, pow_ne_zero]

lemma shift26_and_15 (v : Nat) : (v >>> 26) &&& 0xF = v / 2 ^ 26 % 16 := by
  rw [Nat.shiftRight_eq_div_pow]
  rw [show (0xF : ℕ) = 2 ^ 4 - 1 from rfl, Nat.and_pow_two_sub_one_eq_mod]

lemma shift24_and_3 (v : Nat) : (v >>> 24) &&& 0x3 = v / 2 ^ 24 % 4 := by
  rw [Nat.shiftRight_eq_div_pow]
  rw [show (0x3 : ℕ) = 2 ^ 2 - 1 from rfl, Nat.and_pow_two_sub_one_eq_mod]

/-- C4: when the identity token hex-parses to `v`, the decoded stealth flag is
bit 31 of `v`, the no-tracking flag is bit 30, the aircraft category is the
16-entry table lookup of bits 29-26, and the address type is bits 25-24 read
as 0=Unknown, 1=ICAO, 2=FLARM, 3=OgnTracker; a malformed token leaves the
message unchanged, all identity fields at their defaults. -/
theorem C4_identityCodec :
    (∀ (m : OgnMessage) (v : Nat),
      fromCharsHexU32 m.aircraftID = some v →
      (decodeIdentity m).stealthMode = v.testBit 31 ∧
      (decodeIdentity m).noTrackingFlag = v.testBit 30 ∧
      (decodeIdentity m).aircraftType = AircraftCategoryMap (v / 2 ^ 26 % 16) ∧
      (decodeIdentity m).addressType =
        (match v / 2 ^ 24 % 4 with
         | 0 => OgnAddressType.UNKNOWN
         | 1 => OgnAddressType.ICAO
         | 2 => OgnAddressType.FLARM
         | _ => OgnAddressType.OGN_TRACKER)) ∧
    (∀ m : OgnMessage, fromCharsHexU32 m.aircraftID = none → decodeIdentity m = m) := by
  constructor
  · intro m v hv
    have hne : m.aircraftID ≠ [] := by
      intro he
      rw [he] at hv
      simp [fromCharsHexU32, takeHex] at hv
    unfold decodeIdentity
    rw [if_pos hne, hv]
    simp only [show (0x80000000 : ℕ) = 2 ^ 31 from rfl, show (0x40000000 : ℕ) = 2 ^ 30 from rfl,
      bne_and_two_pow, shift26_and_15, shift24_and_3]
    refine ⟨?_, ?_, ?_, ?_⟩ <;> split <;> rfl
  · intro m hv
    unfold decodeIdentity
    split
    · rw [hv]
    · rfl

/-- Witness for C4: the hypotheses are satisfiable at the identity token
`0ADDE626` (value 182314534), whose category bits decode to TowPlane and
address-type bits to FLARM. -/
theorem C4_witness :
    (decodeIdentity { mkMessage [] with aircraftID := ("0ADDE626").toList }).stealthMode =
        Nat.testBit 182314534 31 ∧
      (decodeIdentity { mkMessage [] with aircraftID := ("0ADDE626").toList }).noTrackingFlag =
        Nat.testBit 182314534 30 ∧
      (decodeIdentity { mkMessage [] with aircraftID := ("0ADDE626").toList }).aircraftType =
        AircraftCategoryMap (182314534 / 2 ^ 26 % 16) ∧
      (decodeIdentity { mkMessage [] with aircraftID := ("0ADDE626").toList }).addressType =
        (match 182314534 / 2 ^ 24 % 4 with
         | 0 => OgnAddressType.UNKNOWN
         | 1 => OgnAddressType.ICAO
         | 2 => OgnAddressType.FLARM
         | _ => OgnAddressType.OGN_TRACKER) :=
  C4_identityCodec.1 { mkMessage [] with aircraftID := ("0ADDE626").toList } 182314534 (by decide)

/- ### Dispatch lemmas for the sentence classifier -/

lemma parseAprsis_eq_traffic (m : OgnMessage) (ci : Nat)
    (hhash : listStartsWith m.sentence (['#']) = false)
    (hcolon : findChar m.sentence ':' = some ci)
    (hh : 5 ≤ (m.sentence.take ci).length)
    (hb : 5 ≤ (m.sentence.drop (ci + 1)).length)
    (hslash : listStartsWith (m.sentence.drop (ci + 1)) (['/']) = true) :
    parseAprsisMessage m =
      parseTrafficReport m (m.sentence.take ci) (m.sentence.drop (ci + 1)) := by
  unfold parseAprsisMessage
  rw [if_neg (by rw [hhash]; exact Bool.false_ne_true)]
  simp only [hcolon]
  rw [if_neg (by omega)]
  rw [if_pos hslash]

lemma parseAprsis_eq_status (m : OgnMessage) (ci : Nat)
    (hhash : listStartsWith m.sentence (['#']) = false)
    (hcolon : findChar m.sentence ':' = some ci)
    (hh : 5 ≤ (m.sentence.take ci).length)
    (hb : 5 ≤ (m.sentence.drop (ci + 1)).length)
    (hgt : listStartsWith (m.sentence.drop (ci + 1)) (['>']) = true) :
    parseAprsisMessage m =
      parseStatusMessage m (m.sentence.take ci) (m.sentence.drop (ci + 1)) := by
  obtain ⟨t, ht⟩ := listStartsWith_single hgt
  unfold parseAprsisMessage
  rw [if_neg (by rw [hhash]; exact Bool.false_ne_true)]
  simp only [hcolon]
  rw [if_neg (by omega)]
  rw [if_neg (by rw [ht]; simp [listStartsWith])]
  rw [if_pos hgt]

/- ### Claim C1 (amended part) -/

/-- C1 amended: on a line dispatched to traffic-report decoding whose
`aprsPart` fails the leading-slash or 30-character structural check, the
decoded record has kind Unknown and timestamp and all numeric fields remain
at their defaults, but the source id HAS been populated with the header text
before the first `'>'` (which every header reaching this branch contains). -/
theorem C1_amendedShortAprs :
    ∀ (s : List Char) (ci idx : Nat),
      listStartsWith s (['#']) = false →
      findChar s ':' = some ci →
      5 ≤ (s.take ci).length →
      5 ≤ (s.drop (ci + 1)).length →
      listStartsWith (s.drop (ci + 1)) (['/']) = true →
      findChar (s.take ci) '>' = some idx →
      ¬ (listStartsWith (splitBody (s.drop (ci + 1))).1 (['/']) = true ∧
          30 ≤ (splitBody (s.drop (ci + 1))).1.length) →
      parseAprsisMessage (mkMessage s) =
        { mkMessage s with type := OgnMessageType.UNKNOWN,
                           sourceId := (s.take ci).take idx } := by
  intro s ci idx h1 h2 h3 h4 h5 h6 h7
  rw [parseAprsis_eq_traffic (mkMessage s) ci h1 h2 h3 h4 h5]
  obtain ⟨t, ht⟩ := listStartsWith_single h5
  unfold parseTrafficReport
  simp only [mkMessage]
  rw [ht] at h7 ⊢
  rw [if_neg (by simp [List.getD])]
  simp only [h6]
  rw [if_pos h7]

/-- Witness for C1: the amended statement instantiated on the concrete
short-aprsPart sentence. -/
theorem C1_witness :
    parseAprsisMessage (mkMessage sentenceC1) =
      { mkMessage sentenceC1 with type := OgnMessageType.UNKNOWN,
                                  sourceId := (sentenceC1.take 23).take 9 } :=
  C1_amendedShortAprs sentenceC1 23 9 (by decide) (by decide) (by decide) (by decide)
    (by decide) (by decide) (by decide)

/- ### Claim C2 (amended part) -/

/-- C2 amended: for every input that does not start with `#`, if there is no
colon, or the header or body side of the colon split is shorter than 5
characters, or the whole input is shorter than the minimum structural length
of 11 characters, the parse returns the message unchanged: kind Unknown and
every field still at its sentinel default.  (Inputs starting with `#` are
classified Comment before the colon test.)  The embedding is total, which is
the model of "terminates without out-of-bounds access or fault". -/
theorem C2_amendedMalformed :
    (∀ s : List Char,
      listStartsWith s (['#']) = false →
      (match findChar s ':' with
       | none => True
       | some ci => (s.take ci).length < 5 ∨ (s.drop (ci + 1)).length < 5) →
      parseAprsisMessage (mkMessage s) = mkMessage s) ∧
    (∀ s : List Char,
      listStartsWith s (['#']) = false →
      s.length < 11 →
      parseAprsisMessage (mkMessage s) = mkMessage s) := by
  have main : ∀ s : List Char,
      listStartsWith s (['#']) = false →
      (match findChar s ':' with
       | none => True
       | some ci => (s.take ci).length < 5 ∨ (s.drop (ci + 1)).length < 5) →
      parseAprsisMessage (mkMessage s) = mkMessage s := by
    intro s h1 h2
    unfold parseAprsisMessage
    simp only [mkMessage]
    rw [if_neg (by rw [h1]; exact Bool.false_ne_true)]
    split
    · rfl
    · next ci hc =>
      rw [hc] at h2
      rw [if_pos h2]
  constructor
  · exact main
  · intro s h1 hlen
    apply main s h1
    cases hc : findChar s ':' with
    | none => exact True.intro
    | some ci =>
      have hci := findChar_lt_length hc
      simp only [List.length_take, List.length_drop]
      omega

/-- Witness for C2: the amended statement at the colon-free input `"hello"`
and at the short input `"AB:CD"`. -/
theorem C2_witness :
    parseAprsisMessage (mkMessage (("hello").toList)) = mkMessage (("hello").toList) ∧
    parseAprsisMessage (mkMessage (("AB:CD").toList)) = mkMessage (("AB:CD").toList) :=
  ⟨C2_amendedMalformed.1 (("hello").toList) (by decide) (by exact trivial),
   C2_amendedMalformed.2 (("AB:CD").toList) (by decide) (by decide)⟩

/- ### Claim C9 (amended part) -/

/-- C9 amended: a well-formed line whose body starts with `>` is decoded with
kind Status, and nothing else: the source id (like every other field) is left
at its default, `parseStatusMessage` ignoring header and body. -/
theorem C9_amendedStatus :
    ∀ (s : List Char) (ci : Nat),
      listStartsWith s (['#']) = false →
      findChar s ':' = some ci →
      5 ≤ (s.take ci).length →
      5 ≤ (s.drop (ci + 1)).length →
      listStartsWith (s.drop (ci + 1)) (['>']) = true →
      parseAprsisMessage (mkMessage s) =
        { mkMessage s with type := OgnMessageType.STATUS } := by
  intro s ci h1 h2 h3 h4 h5
  rw [parseAprsis_eq_status (mkMessage s) ci h1 h2 h3 h4 h5]
  rfl

/-- Witness for C9: the amended statement at the concrete status line. -/
theorem C9_witness :
    parseAprsisMessage (mkMessage sentenceC9) =
      { mkMessage sentenceC9 with type := OgnMessageType.STATUS } :=
  C9_amendedStatus sentenceC9 7 (by decide) (by decide) (by decide) (by decide) (by decide)

/- ### Claim C5 (amended part) -/

/-- C5 amended: for every identity token with at least 8 characters that
hex-parses, the decoded address is characters 2-7 of the token stored
verbatim — with the original casing, not converted to uppercase. -/
theorem C5_amendedAddress :
    ∀ (m : OgnMessage) (v : Nat),
      fromCharsHexU32 m.aircraftID = some v →
      8 ≤ m.aircraftID.length →
      (decodeIdentity m).address = substrP m.aircraftID 2 6 := by
  intro m v hv hlen
  have hne : m.aircraftID ≠ [] := by
    intro he
    rw [he] at hlen
    simp at hlen
  unfold decodeIdentity
  rw [if_pos hne, hv]
  dsimp only
  rw [if_pos hlen]

/-- Witness for C5: the amended statement at the lowercase token
`0adde626`. -/
theorem C5_witness :
    (decodeIdentity { mkMessage [] with aircraftID := ("0adde626").toList }).address =
      substrP (("0adde626").toList) 2 6 :=
  C5_amendedAddress { mkMessage [] with aircraftID := ("0adde626").toList } 182314534
    (by decide) (by decide)

/- ### Claim C3 -/

lemma charLower_digit {c : Char} (h : isDigitChar c = true) : charLower c = c := by
  simp only [isDigitChar, Bool.and_eq_true, decide_eq_true_eq] at h
  unfold charLower
  rw [if_neg (by omega)]

lemma startsWithCI_inf_of_digit {c : Char} (cs : List Char) (h : isDigitChar c = true) :
    startsWithCI (c :: cs) (['i', 'n', 'f']) = false := by
  have hne : charLower c = 'i' → False := by
    rw [charLower_digit h]
    intro he
    rw [he] at h
    exact absurd h (by decide)
  rw [startsWithCI, decide_eq_false hne, Bool.false_and]

lemma startsWithCI_nan_of_digit {c : Char} (cs : List Char) (h : isDigitChar c = true) :
    startsWithCI (c :: cs) (['n', 'a', 'n']) = false := by
  have hne : charLower c = 'n' → False := by
    rw [charLower_digit h]
    intro he
    rw [he] at h
    exact absurd h (by decide)
  rw [startsWithCI, decide_eq_false hne, Bool.false_and]

lemma fromCharsFMag_digits2 (c1 c2 : Char)
    (h1 : isDigitChar c1 = true) (h2 : isDigitChar c2 = true) :
    fromCharsFMag [c1, c2] = some (.fin (((10 * digitVal c1 + digitVal c2 : ℕ) : ℚ))) := by
  have ht : takeDigits [c1, c2] = [c1, c2] := by simp [takeDigits, h1, h2]
  simp [fromCharsFMag, startsWithCI_inf_of_digit _ h1, startsWithCI_nan_of_digit _ h1, ht,
    digitsToNat, parseExp, applyExp]

lemma fromCharsFMag_digits3 (c1 c2 c3 : Char)
    (h1 : isDigitChar c1 = true) (h2 : isDigitChar c2 = true) (h3 : isDigitChar c3 = true) :
    fromCharsFMag [c1, c2, c3] =
      some (.fin (((100 * digitVal c1 + 10 * digitVal c2 + digitVal c3 : ℕ) : ℚ))) := by
  have ht : takeDigits [c1, c2, c3] = [c1, c2, c3] := by simp [takeDigits, h1, h2, h3]
  have harith : digitsToNat [c1, c2, c3] =
      100 * digitVal c1 + 10 * digitVal c2 + digitVal c3 := by
    simp [digitsToNat]
    ring
  simp [fromCharsFMag, startsWithCI_inf_of_digit _ h1, startsWithCI_nan_of_digit _ h1, ht,
    harith, show digitsToNat [] = 0 from rfl, parseExp, applyExp]

lemma isDigitChar_ne_minus {c : Char} (h : isDigitChar c = true) : c ≠ '-' := by
  intro he
  rw [he] at h
  exact absurd h (by decide)

lemma fromCharsF_digits2 (c1 c2 : Char)
    (h1 : isDigitChar c1 = true) (h2 : isDigitChar c2 = true) :
    fromCharsF [c1, c2] = some (.fin (((10 * digitVal c1 + digitVal c2 : ℕ) : ℚ))) := by
  unfold fromCharsF
  split
  · next rest heq =>
    exact absurd (List.head_eq_of_cons_eq heq) (isDigitChar_ne_minus h1)
  · exact fromCharsFMag_digits2 c1 c2 h1 h2

lemma fromCharsF_digits3 (c1 c2 c3 : Char)
    (h1 : isDigitChar c1 = true) (h2 : isDigitChar c2 = true) (h3 : isDigitChar c3 = true) :
    fromCharsF [c1, c2, c3] =
      some (.fin (((100 * digitVal c1 + 10 * digitVal c2 + digitVal c3 : ℕ) : ℚ))) := by
  unfold fromCharsF
  split
  · next rest heq =>
    exact absurd (List.head_eq_of_cons_eq heq) (isDigitChar_ne_minus h1)
  · exact fromCharsFMag_digits3 c1 c2 c3 h1 h2 h3

lemma enhCond_of_digit {enh : Char} (he : isDigitChar enh = true) :
    enh ≠ nullChar ∧ (48 ≤ enh.toNat ∧ enh.toNat ≤ 57) := by
  simp only [isDigitChar, Bool.and_eq_true, decide_eq_true_eq] at he
  refine ⟨?_, he⟩
  intro h
  rw [h] at he
  exact absurd he.1 (by decide)

lemma enhCond_of_not_digit {enh : Char} (he : ¬ isDigitChar enh = true) :
    ¬ (enh ≠ nullChar ∧ (48 ≤ enh.toNat ∧ enh.toNat ≤ 57)) := by
  simp only [isDigitChar, Bool.and_eq_true, decide_eq_true_eq] at he
  intro h
  exact he h.2

/-- C3: `decodeLatitude` (7+ characters, 2-digit degrees) and
`decodeLongitude` (8+ characters, 3-digit degrees) return
degrees + minutes/60, plus enhancement-digit × 0.001/60 when the enhancement
character is a decimal digit, negated when the direction is `S` respectively
`W` (stated for degree windows of digits and a minute window parsing to a
finite value); and a too-short input or one whose degree or minute window
fails to parse returns NaN rather than faulting. -/
theorem C3_coordinateCodec :
    (∀ (s : List Char) (dir enh : Char), s.length < 7 → decodeLatitude s dir enh = FpVal.nan) ∧
    (∀ (s : List Char) (dir enh : Char),
      fromCharsF (s.take 2) = none ∨ fromCharsF (s.drop 2) = none →
      decodeLatitude s dir enh = FpVal.nan) ∧
    (∀ (c1 c2 : Char) (rest : List Char) (dir enh : Char) (minutes : ℚ),
      isDigitChar c1 = true → isDigitChar c2 = true →
      5 ≤ rest.length →
      fromCharsF rest = some (FpVal.fin minutes) →
      decodeLatitude (c1 :: c2 :: rest) dir enh =
        FpVal.fin ((if dir = 'S' then -1 else 1) *
          (((10 * digitVal c1 + digitVal c2 : ℕ) : ℚ) + minutes / 60 +
            (if isDigitChar enh = true then (digitVal enh : ℚ) * (1 / 1000) / 60 else 0)))) ∧
    (∀ (s : List Char) (dir enh : Char), s.length < 8 → decodeLongitude s dir enh = FpVal.nan) ∧
    (∀ (s : List Char) (dir enh : Char),
      fromCharsF (s.take 3) = none ∨ fromCharsF (s.drop 3) = none →
      decodeLongitude s dir enh = FpVal.nan) ∧
    (∀ (c1 c2 c3 : Char) (rest : List Char) (dir enh : Char) (minutes : ℚ),
      isDigitChar c1 = true → isDigitChar c2 = true → isDigitChar c3 = true →
      5 ≤ rest.length →
      fromCharsF rest = some (FpVal.fin minutes) →
      decodeLongitude (c1 :: c2 :: c3 :: rest) dir enh =
        FpVal.fin ((if dir = 'W' then -1 else 1) *
          (((100 * digitVal c1 + 10 * digitVal c2 + digitVal c3 : ℕ) : ℚ) + minutes / 60 +
            (if isDigitChar enh = true then (digitVal enh : ℚ) * (1 / 1000) / 60 else 0)))) := by
  refine ⟨?_, ?_, ?_, ?_, ?_, ?_⟩
  · intro s dir enh h
    unfold decodeLatitude
    rw [if_pos h]
  · intro s dir enh h
    unfold decodeLatitude
    by_cases hl : s.length < 7
    · rw [if_pos hl]
    · rw [if_neg hl]
      rcases h with h | h
      · rw [h]
      · cases hf : fromCharsF (s.take 2) with
        | none => rfl
        | some d =>
          dsimp only
          rw [h]
  · intro c1 c2 rest dir enh minutes h1 h2 hlen hmin
    unfold decodeLatitude
    rw [if_neg (by simp only [List.length_cons]; omega)]
    rw [show (c1 :: c2 :: rest).take 2 = [c1, c2] from rfl]
    rw [fromCharsF_digits2 c1 c2 h1 h2]
    rw [show (c1 :: c2 :: rest).drop 2 = rest from rfl]
    rw [hmin]
    dsimp only
    by_cases he : isDigitChar enh = true
    · rw [if_pos (enhCond_of_digit he), if_pos he]
      by_cases hd : dir = 'S'
      · rw [if_pos hd, if_pos hd]
        simp only [digitVal, fpDivPos, fpAdd, fpNeg, FpVal.fin.injEq]
        ring
      · rw [if_neg hd, if_neg hd]
        simp only [digitVal, fpDivPos, fpAdd, FpVal.fin.injEq]
        ring
    · rw [if_neg (enhCond_of_not_digit he), if_neg he]
      by_cases hd : dir = 'S'
      · rw [if_pos hd, if_pos hd]
        simp only [fpDivPos, fpAdd, fpNeg, FpVal.fin.injEq]
        ring
      · rw [if_neg hd, if_neg hd]
        simp only [fpDivPos, fpAdd, FpVal.fin.injEq]
        ring
  · intro s dir enh h
    unfold decodeLongitude
    rw [if_pos h]
  · intro s dir enh h
    unfold decodeLongitude
    by_cases hl : s.length < 8
    · rw [if_pos hl]
    · rw [if_neg hl]
      rcases h with h | h
      · rw [h]
      · cases hf : fromCharsF (s.take 3) with
        | none => rfl
        | some d =>
          dsimp only
          rw [h]
  · intro c1 c2 c3 rest dir enh minutes h1 h2 h3 hlen hmin
    unfold decodeLongitude
    rw [if_neg (by simp only [List.length_cons]; omega)]
    rw [show (c1 :: c2 :: c3 :: rest).take 3 = [c1, c2, c3] from rfl]
    rw [fromCharsF_digits3 c1 c2 c3 h1 h2 h3]
    rw [show (c1 :: c2 :: c3 :: rest).drop 3 = rest from rfl]
    rw [hmin]
    dsimp only
    by_cases he : isDigitChar enh = true
    · rw [if_pos (enhCond_of_digit he), if_pos he]
      by_cases hd : dir = 'W'
      · rw [if_pos hd, if_pos hd]
        simp only [digitVal, fpDivPos, fpAdd, fpNeg, FpVal.fin.injEq]
        ring
      · rw [if_neg hd, if_neg hd]
        simp only [digitVal, fpDivPos, fpAdd, FpVal.fin.injEq]
        ring
    · rw [if_neg (enhCond_of_not_digit he), if_neg he]
      by_cases hd : dir = 'W'
      · rw [if_pos hd, if_pos hd]
        simp only [fpDivPos, fpAdd, fpNeg, FpVal.fin.injEq]
        ring
      · rw [if_neg hd, if_neg hd]
        simp only [fpDivPos, fpAdd, FpVal.fin.injEq]
        ring

/-- Witness for C3: the degrees-and-minutes formula instantiated on the
concrete latitude text `5111.32N`. -/
theorem C3_witness :
    decodeLatitude ('5' :: '1' :: ("11.32N").toList) 'N' nullChar =
      FpVal.fin ((if 'N' = 'S' then -1 else 1) *
        (((10 * digitVal '5' + digitVal '1' : ℕ) : ℚ) +
          ((11 : ℚ) + (32 : ℚ) / 10 ^ 2) / 60 +
          (if isDigitChar nullChar = true then (digitVal nullChar : ℚ) * (1 / 1000) / 60
           else 0))) :=
  C3_coordinateCodec.2.2.1 '5' '1' (("11.32N").toList) 'N' nullChar
    ((11 : ℚ) + (32 : ℚ) / 10 ^ 2) (by decide) (by decide) (by decide) rfl

/- ### Claim C6 -/

lemma setWindDirection_keeps_type (m : OgnMessage) (ap : List Char) :
    (setWindDirection m ap).type = m.type := by
  unfold setWindDirection
  split <;> rfl

lemma setWindDirection_keeps_wind_speed (m : OgnMessage) (ap : List Char) :
    (setWindDirection m ap).wind_speed = m.wind_speed := by
  unfold setWindDirection
  split <;> rfl

lemma setWindDirection_keeps_wind_gust_speed (m : OgnMessage) (ap : List Char) :
    (setWindDirection m ap).wind_gust_speed = m.wind_gust_speed := by
  unfold setWindDirection
  split <;> rfl

lemma setWindDirection_keeps_temperature (m : OgnMessage) (ap : List Char) :
    (setWindDirection m ap).temperature = m.temperature := by
  unfold setWindDirection
  split <;> rfl

lemma setWindDirection_keeps_humidity (m : OgnMessage) (ap : List Char) :
    (setWindDirection m ap).humidity = m.humidity := by
  unfold setWindDirection
  split <;> rfl

lemma setWindDirection_keeps_pressure (m : OgnMessage) (ap : List Char) :
    (setWindDirection m ap).pressure = m.pressure := by
  unfold setWindDirection
  split <;> rfl

lemma setWindSpeed_keeps_type (m : OgnMessage) (ap : List Char) :
    (setWindSpeed m ap).type = m.type := by
  unfold setWindSpeed
  split
  · split <;> rfl
  · rfl

lemma setWindSpeed_keeps_wind_direction (m : OgnMessage) (ap : List Char) :
    (setWindSpeed m ap).wind_direction = m.wind_direction := by
  unfold setWindSpeed
  split
  · split <;> rfl
  · rfl

lemma setWindSpeed_keeps_wind_gust_speed (m : OgnMessage) (ap : List Char) :
    (setWindSpeed m ap).wind_gust_speed = m.wind_gust_speed := by
  unfold setWindSpeed
  split
  · split <;> rfl
  · rfl

lemma setWindSpeed_keeps_temperature (m : OgnMessage) (ap : List Char) :
    (setWindSpeed m ap).temperature = m.temperature := by
  unfold setWindSpeed
  split
  · split <;> rfl
  · rfl

lemma setWindSpeed_keeps_humidity (m : OgnMessage) (ap : List Char) :
    (setWindSpeed m ap).humidity = m.humidity := by
  unfold setWindSpeed
  split
  · split <;> rfl
  · rfl

lemma setWindSpeed_keeps_pressure (m : OgnMessage) (ap : List Char) :
    (setWindSpeed m ap).pressure = m.pressure := by
  unfold setWindSpeed
  split
  · split <;> rfl
  · rfl

lemma setWindGust_keeps_type (m : OgnMessage) (ap : List Char) :
    (setWindGust m ap).type = m.type := by
  unfold setWindGust
  split
  · split <;> rfl
  · rfl

lemma setWindGust_keeps_wind_direction (m : OgnMessage) (ap : List Char) :
    (setWindGust m ap).wind_direction = m.wind_direction := by
  unfold setWindGust
  split
  · split <;> rfl
  · rfl

lemma setWindGust_keeps_wind_speed (m : OgnMessage) (ap : List Char) :
    (setWindGust m ap).wind_speed = m.wind_speed := by
  unfold setWindGust
  split
  · split <;> rfl
  · rfl

lemma setWindGust_keeps_temperature (m : OgnMessage) (ap : List Char) :
    (setWindGust m ap).temperature = m.temperature := by
  unfold setWindGust
  split
  · split <;> rfl
  · rfl

lemma setWindGust_keeps_humidity (m : OgnMessage) (ap : List Char) :
    (setWindGust m ap).humidity = m.humidity := by
  unfold setWindGust
  split
  · split <;> rfl
  · rfl

lemma setWindGust_keeps_pressure (m : OgnMessage) (ap : List Char) :
    (setWindGust m ap).pressure = m.pressure := by
  unfold setWindGust
  split
  · split <;> rfl
  · rfl

lemma setWeatherTemperature_keeps_type (m : OgnMessage) (ap : List Char) :
    (setWeatherTemperature m ap).type = m.type := by
  unfold setWeatherTemperature
  split
  · split <;> rfl
  · rfl

lemma setWeatherTemperature_keeps_wind_direction (m : OgnMessage) (ap : List Char) :
    (setWeatherTemperature m ap).wind_direction = m.wind_direction := by
  unfold setWeatherTemperature
  split
  · split <;> rfl
  · rfl

lemma setWeatherTemperature_keeps_wind_speed (m : OgnMessage) (ap : List Char) :
    (setWeatherTemperature m ap).wind_speed = m.wind_speed := by
  unfold setWeatherTemperature
  split
  · split <;> rfl
  · rfl

lemma setWeatherTemperature_keeps_wind_gust_speed (m : OgnMessage) (ap : List Char) :
    (setWeatherTemperature m ap).wind_gust_speed = m.wind_gust_speed := by
  unfold setWeatherTemperature
  split
  · split <;> rfl
  · rfl

lemma setWeatherTemperature_keeps_humidity (m : OgnMessage) (ap : List Char) :
    (setWeatherTemperature m ap).humidity = m.humidity := by
  unfold setWeatherTemperature
  split
  · split <;> rfl
  · rfl

lemma setWeatherTemperature_keeps_pressure (m : OgnMessage) (ap : List Char) :
    (setWeatherTemperature m ap).pressure = m.pressure := by
  unfold setWeatherTemperature
  split
  · split <;> rfl
  · rfl

lemma setWeatherHumidity_keeps_type (m : OgnMessage) (ap : List Char) :
    (setWeatherHumidity m ap).type = m.type := by
  unfold setWeatherHumidity
  split
  · split <;> rfl
  · rfl

lemma setWeatherHumidity_keeps_wind_direction (m : OgnMessage) (ap : List Char) :
    (setWeatherHumidity m ap).wind_direction = m.wind_direction := by
  unfold setWeatherHumidity
  split
  · split <;> rfl
  · rfl

lemma setWeatherHumidity_keeps_wind_speed (m : OgnMessage) (ap : List Char) :
    (setWeatherHumidity m ap).wind_speed = m.wind_speed := by
  unfold setWeatherHumidity
  split
  · split <;> rfl
  · rfl

lemma setWeatherHumidity_keeps_wind_gust_speed (m : OgnMessage) (ap : List Char) :
    (setWeatherHumidity m ap).wind_gust_speed = m.wind_gust_speed := by
  unfold setWeatherHumidity
  split
  · split <;> rfl
  · rfl

lemma setWeatherHumidity_keeps_temperature (m : OgnMessage) (ap : List Char) :
    (setWeatherHumidity m ap).temperature = m.temperature := by
  unfold setWeatherHumidity
  split
  · split <;> rfl
  · rfl

lemma setWeatherHumidity_keeps_pressure (m : OgnMessage) (ap : List Char) :
    (setWeatherHumidity m ap).pressure = m.pressure := by
  unfold setWeatherHumidity
  split
  · split <;> rfl
  · rfl

lemma setWeatherPressure_keeps_type (m : OgnMessage) (ap : List Char) :
    (setWeatherPressure m ap).type = m.type := by
  unfold setWeatherPressure
  split
  · dsimp only
    split <;> rfl
  · rfl

lemma setWeatherPressure_keeps_wind_direction (m : OgnMessage) (ap : List Char) :
    (setWeatherPressure m ap).wind_direction = m.wind_direction := by
  unfold setWeatherPressure
  split
  · dsimp only
    split <;> rfl
  · rfl

lemma setWeatherPressure_keeps_wind_speed (m : OgnMessage) (ap : List Char) :
    (setWeatherPressure m ap).wind_speed = m.wind_speed := by
  unfold setWeatherPressure
  split
  · dsimp only
    split <;> rfl
  · rfl

lemma setWeatherPressure_keeps_wind_gust_speed (m : OgnMessage) (ap : List Char) :
    (setWeatherPressure m ap).wind_gust_speed = m.wind_gust_speed := by
  unfold setWeatherPressure
  split
  · dsimp only
    split <;> rfl
  · rfl

lemma setWeatherPressure_keeps_temperature (m : OgnMessage) (ap : List Char) :
    (setWeatherPressure m ap).temperature = m.temperature := by
  unfold setWeatherPressure
  split
  · dsimp only
    split <;> rfl
  · rfl

lemma setWeatherPressure_keeps_humidity (m : OgnMessage) (ap : List Char) :
    (setWeatherPressure m ap).humidity = m.humidity := by
  unfold setWeatherPressure
  split
  · dsimp only
    split <;> rfl
  · rfl

lemma processOgnItem_type (m : OgnMessage) (item : List Char) :
    (processOgnItem m item).type = m.type := by
  unfold processOgnItem
  by_cases h1 : listStartsWith item (['i', 'd']) = true
  · rw [if_pos h1]
  · rw [if_neg h1]
    by_cases h2 : listStartsWith item (['t']) = true
    · rw [if_pos h2]
      split <;> rfl
    · rw [if_neg h2]
      by_cases h3 : listStartsWith item (['h']) = true
      · rw [if_pos h3]
        split <;> rfl
      · rw [if_neg h3]
        by_cases h4 : listStartsWith item (['b']) = true
        · rw [if_pos h4]
          split <;> rfl
        · rw [if_neg h4]
          by_cases h5 : listEndsWith item (['f', 'p', 'm']) = true
          · rw [if_pos h5]
            split
            · dsimp only
              split <;> rfl
            · rfl
          · rw [if_neg h5]
            by_cases h6 : listEndsWith item (['r', 'o', 't']) = true
            · rw [if_pos h6]
            · rw [if_neg h6]
              by_cases h7 : listEndsWith item (['d', 'B']) = true
              · rw [if_pos h7]
              · rw [if_neg h7]
                by_cases h8 : listEndsWith item (['e']) = true
                · rw [if_pos h8]
                · rw [if_neg h8]
                  by_cases h9 : listEndsWith item (['k', 'H', 'z']) = true
                  · rw [if_pos h9]
                  · rw [if_neg h9]
                    by_cases h10 : listStartsWith item (['F', 'L']) = true
                    · rw [if_pos h10]
                    · rw [if_neg h10]
                      by_cases h11 : listStartsWith item (['A']) = true ∧ 2 < item.length ∧ item.getD 2 nullChar = ':'
                      · rw [if_pos h11]
                        split <;> rfl
                      · rw [if_neg h11]
                        by_cases h12 : listStartsWith item (['S', 'q']) = true
                        · rw [if_pos h12]
                        · rw [if_neg h12]
                          by_cases h13 : listStartsWith item (['g', 'p', 's', ':']) = true
                          · rw [if_pos h13]
                          · rw [if_neg h13]

lemma foldl_processOgnItem_type (items : List (List Char)) :
    ∀ m : OgnMessage, (items.foldl processOgnItem m).type = m.type := by
  induction items with
  | nil => intro m; rfl
  | cons it rest ih =>
    intro m
    rw [List.foldl_cons, ih, processOgnItem_type]

lemma decodeIdentity_type (m : OgnMessage) : (decodeIdentity m).type = m.type := by
  unfold decodeIdentity
  by_cases h : m.aircraftID ≠ []
  · rw [if_pos h]
    split
    · dsimp only
      split <;> rfl
    · rfl
  · rw [if_neg h]

lemma parseWeatherFields_type (m : OgnMessage) (ap : List Char) :
    (parseWeatherFields m ap).type = m.type := by
  unfold parseWeatherFields
  simp only [setWeatherPressure_keeps_type, setWeatherHumidity_keeps_type,
    setWeatherTemperature_keeps_type, setWindGust_keeps_type, setWindSpeed_keeps_type,
    setWindDirection_keeps_type]

lemma digitVal_le_nine {c : Char} (h : isDigitChar c = true) : digitVal c ≤ 9 := by
  simp only [isDigitChar, Bool.and_eq_true, decide_eq_true_eq] at h
  simp only [digitVal]
  omega

lemma fromCharsU32_digits3 (d1 d2 d3 : Char)
    (h1 : isDigitChar d1 = true) (h2 : isDigitChar d2 = true) (h3 : isDigitChar d3 = true) :
    fromCharsU32 [d1, d2, d3] =
      some (100 * digitVal d1 + 10 * digitVal d2 + digitVal d3) := by
  have ht : takeDigits [d1, d2, d3] = [d1, d2, d3] := by simp [takeDigits, h1, h2, h3]
  have harith : digitsToNat [d1, d2, d3] =
      100 * digitVal d1 + 10 * digitVal d2 + digitVal d3 := by
    simp [digitsToNat]
    ring
  have b1 := digitVal_le_nine h1
  have b2 := digitVal_le_nine h2
  have b3 := digitVal_le_nine h3
  simp [fromCharsU32, ht, harith]
  omega

/-- The APRS part of the concrete weather sentence `sentenceC6`. -/
def aprsPartC6 : List Char := ("/222245h4803.92N/00800.93E_292/005g010t030h01b65526").toList

set_option maxHeartbeats 1600000 in
/-- C6: every traffic-report line whose symbol lookup yields WeatherStation is
decoded with kind Weather; wind direction is the 3 digits at offsets 27..29 of
the APRS part; wind speed is the integer after the next `/` at or beyond the
underscore offset 26; gust, temperature, humidity and pressure are extracted
independently, each keeping its previous (default) value when its marker
character is absent; and decoding the concrete Hoernle2 weather sentence
yields kind Weather, wind direction 292, wind speed 5, altitude NaN. -/
theorem C6_weatherDecoding :
    (∀ (m : OgnMessage) (header body : List Char) (idx : Nat),
      body.getD 0 nullChar = '/' →
      findChar header '>' = some idx →
      listStartsWith (splitBody body).1 (['/']) = true →
      30 ≤ (splitBody body).1.length →
      AprsSymbolMap [(splitBody body).1.getD 16 nullChar, (splitBody body).1.getD 26 nullChar] =
        OgnSymbol.WEATHERSTATION →
      (parseTrafficReport m header body).type = OgnMessageType.WEATHER) ∧
    (∀ (m : OgnMessage) (ap : List Char) (d1 d2 d3 : Char),
      substrP ap 27 3 = [d1, d2, d3] →
      isDigitChar d1 = true → isDigitChar d2 = true → isDigitChar d3 = true →
      (parseWeatherFields m ap).wind_direction =
        100 * digitVal d1 + 10 * digitVal d2 + digitVal d3) ∧
    (∀ (m : OgnMessage) (ap : List Char) (si w : Nat),
      findCharFrom ap '/' 26 = some si →
      fromCharsU32 (substrP ap (si + 1) 3) = some w →
      (parseWeatherFields m ap).wind_speed = w) ∧
    (∀ (m : OgnMessage) (ap : List Char),
      findCharFrom ap 'g' 26 = none →
      (parseWeatherFields m ap).wind_gust_speed = m.wind_gust_speed) ∧
    (∀ (m : OgnMessage) (ap : List Char),
      findCharFrom ap 't' 26 = none →
      (parseWeatherFields m ap).temperature = m.temperature) ∧
    (∀ (m : OgnMessage) (ap : List Char),
      findCharFrom ap 'h' 26 = none →
      (parseWeatherFields m ap).humidity = m.humidity) ∧
    (∀ (m : OgnMessage) (ap : List Char),
      findCharFrom ap 'b' 26 = none →
      (parseWeatherFields m ap).pressure = m.pressure) ∧
    ((parseAprsisMessage (mkMessage sentenceC6)).type = OgnMessageType.WEATHER ∧
     (parseAprsisMessage (mkMessage sentenceC6)).wind_direction = 292 ∧
     (parseAprsisMessage (mkMessage sentenceC6)).wind_speed = 5 ∧
     (parseAprsisMessage (mkMessage sentenceC6)).altitude = FpVal.nan) := by
  refine ⟨?_, ?_, ?_, ?_, ?_, ?_, ?_, ?_⟩
  · intro m header body idx h0 hidx hsw hlen hsym
    unfold parseTrafficReport
    rw [if_neg (by rw [h0]; simp)]
    simp only [hidx]
    rw [if_neg (not_not_intro ⟨hsw, hlen⟩)]
    simp only [hsym]
    rw [if_pos trivial]
    rw [decodeIdentity_type, foldl_processOgnItem_type, parseWeatherFields_type]
  · intro m ap d1 d2 d3 hsub h1 h2 h3
    unfold parseWeatherFields
    simp only [setWeatherPressure_keeps_wind_direction, setWeatherHumidity_keeps_wind_direction,
      setWeatherTemperature_keeps_wind_direction, setWindGust_keeps_wind_direction,
      setWindSpeed_keeps_wind_direction]
    unfold setWindDirection
    rw [show (26 + 1 : ℕ) = 27 from rfl, hsub]
    rw [fromCharsU32_digits3 d1 d2 d3 h1 h2 h3]
  · intro m ap si w hsi hw
    unfold parseWeatherFields
    simp only [setWeatherPressure_keeps_wind_speed, setWeatherHumidity_keeps_wind_speed,
      setWeatherTemperature_keeps_wind_speed, setWindGust_keeps_wind_speed]
    unfold setWindSpeed
    rw [hsi]
    dsimp only
    rw [hw]
  · intro m ap hnone
    unfold parseWeatherFields
    simp only [setWeatherPressure_keeps_wind_gust_speed, setWeatherHumidity_keeps_wind_gust_speed,
      setWeatherTemperature_keeps_wind_gust_speed]
    unfold setWindGust
    rw [hnone]
    simp only [setWindSpeed_keeps_wind_gust_speed, setWindDirection_keeps_wind_gust_speed]
  · intro m ap hnone
    unfold parseWeatherFields
    simp only [setWeatherPressure_keeps_temperature, setWeatherHumidity_keeps_temperature]
    unfold setWeatherTemperature
    rw [hnone]
    simp only [setWindGust_keeps_temperature, setWindSpeed_keeps_temperature,
      setWindDirection_keeps_temperature]
  · intro m ap hnone
    unfold parseWeatherFields
    simp only [setWeatherPressure_keeps_humidity]
    unfold setWeatherHumidity
    rw [hnone]
    simp only [setWeatherTemperature_keeps_humidity, setWindGust_keeps_humidity,
      setWindSpeed_keeps_humidity, setWindDirection_keeps_humidity]
  · intro m ap hnone
    unfold parseWeatherFields
    unfold setWeatherPressure
    rw [hnone]
    simp only [setWeatherHumidity_keeps_pressure, setWeatherTemperature_keeps_pressure,
      setWindGust_keeps_pressure, setWindSpeed_keeps_pressure, setWindDirection_keeps_pressure]
  · exact ⟨by decide, by decide, by decide, by decide⟩

/-- Witness for C6: the wind-direction formula instantiated on the APRS part
of the concrete weather sentence. -/
theorem C6_witness :
    (parseWeatherFields (mkMessage []) aprsPartC6).wind_direction =
      100 * digitVal '2' + 10 * digitVal '9' + digitVal '2' :=
  C6_weatherDecoding.2.1 (mkMessage []) aprsPartC6 '2' '9' '2'
    (by decide) (by decide) (by decide) (by decide)
